import Mathlib

/-!
Verification development for the mentat core: the block-dialect parser
(`src/mentat/parsers/block_parser.py`), the file mutation engine
(`src/mentat/code_file_manager.py`) and the configuration lookup
(`src/mentat/config_manager.py`), shallowly embedded in Lean.

Modelling conventions:
* A file path is a `String`, taken relative to the git root, so
  `os.path.relpath(p, git_root)` and `git_root / p` are both the identity.
* File content is modelled as its list of lines (Python reads files with
  `f.read().split("\n")` and writes them with `"\n".join(lines)`, so the
  line list is a faithful representation of the byte content).
* Python exceptions become an explicit error sum; `raise` aborts the
  remainder of the mutation batch but earlier effects persist, so the
  batch runner returns the state reached so far together with the error.
* The interactive `ask_yes_no(default_yes=False)` collaborator is
  modelled by a queue of scripted boolean answers; an exhausted queue
  yields the stated default `False`.
-/

namespace Mentat

/-- `Replacement` from `mentat/parsers/file_edit.py`: remove lines
`[start, end)` of the pre-edit snapshot and insert `new_lines` there.
Line indices are Python `int`s, hence `Int`. -/
structure Replacement where
  start : Int
  «end» : Int
  new_lines : List String
  deriving Repr, DecidableEq

/-- `FileEdit` from `mentat/parsers/file_edit.py` (fields as used by
`block_parser.py` and `code_file_manager.py`). -/
structure FileEdit where
  file_path : String
  replacements : List Replacement
  is_creation : Bool := false
  is_deletion : Bool := false
  rename_file_path : Option String := none
  deriving Repr, DecidableEq

/-- `FileActionType` from `mentat/parsers/change_display_helper.py`
(the module is referenced by `block_parser.py`; variants as used there). -/
inductive FileActionType where
  | CreateFile
  | UpdateFile
  | DeleteFile
  | RenameFile
  deriving Repr, DecidableEq

/-- `DisplayInformation` from `mentat/parsers/change_display_helper.py`,
fields in the positional order of the constructor call in
`BlockParser._special_block`. -/
structure DisplayInformation where
  file_name : String
  file_lines : List String
  added_block : List String
  removed_block : List String
  file_action : FileActionType
  first_changed_line : Int
  last_changed_line : Int
  new_name : Option String
  deriving Repr, DecidableEq

/-- `_BlockParserAction` from `mentat/parsers/block_parser.py`. -/
inductive BlockParserAction where
  | Insert
  | Replace
  | Delete
  | CreateFile
  | DeleteFile
  | RenameFile
  deriving Repr, DecidableEq

/-- The three sentinel lines of `_BlockParserIndicator`. -/
def indicatorStart : String := "@@start"

/-- The `@@code` sentinel of `_BlockParserIndicator`. -/
def indicatorCode : String := "@@code"

/-- The `@@end` sentinel of `_BlockParserIndicator`. -/
def indicatorEnd : String := "@@end"

/-- `_BlockParserDeserializedJson` after field extraction and coercion:
each wire key is either absent (`none`) or already coerced to its Python
type (paths stay strings under our path model, line numbers are ints). -/
structure DeserializedJson where
  file : Option String := none
  action : Option BlockParserAction := none
  name : Option String := none
  before_line : Option Int := none
  after_line : Option Int := none
  start_line : Option Int := none
  end_line : Option Int := none
  deriving Repr, DecidableEq

/-- Errors raised while decoding a header block. `valueError` embeds the
Python `ValueError`s raised explicitly by `_special_block`; `typeError`
embeds the `TypeError` Python raises when an arithmetic or path operation
meets `None`; `keyError` embeds the `KeyError` of the
`code_file_manager.file_lines[...]` lookup. -/
inductive ParseErr where
  | valueError (msg : String)
  | typeError
  | keyError (path : String)
  deriving Repr, DecidableEq

/-- Python list slice `l[a:b]` for the non-negative indices produced by
header decoding (display-only data). -/
def pySlice (l : List String) (a b : Int) : List String :=
  (l.drop a.toNat).take (b - a).toNat

/-- The range-and-action resolution of the `match deserialized_json.action`
statement in `_special_block` (`block_parser.py:108-138`), starting from
`starting_line = ending_line = 0`. A missing `start-line` faults in Python
(`None - 1` is a `TypeError`); a missing `end-line` is modelled as the
same fault (Python instead lets the `None` flow into the display slice and
the synthesized replacement, which faults when the replacement is used). -/
def resolveAction (j : DeserializedJson) (action : BlockParserAction) :
    Except ParseErr (Int × Int × FileActionType) :=
  match action with
  | BlockParserAction.Insert =>
    match j.before_line with
    | some b =>
      match j.after_line with
      | some a =>
        if b - 1 ≠ a then
          Except.error (ParseErr.valueError "Insert line numbers invalid")
        else Except.ok (b - 1, b - 1, FileActionType.UpdateFile)
      | none => Except.ok (b - 1, b - 1, FileActionType.UpdateFile)
    | none =>
      match j.after_line with
      | some a => Except.ok (a, a, FileActionType.UpdateFile)
      | none =>
        Except.error (ParseErr.valueError "Insert line number not specified")
  | BlockParserAction.Replace | BlockParserAction.Delete =>
    match j.start_line, j.end_line with
    | some sl, some el => Except.ok (sl - 1, el, FileActionType.UpdateFile)
    | _, _ => Except.error ParseErr.typeError
  | BlockParserAction.CreateFile => Except.ok (0, 0, FileActionType.CreateFile)
  | BlockParserAction.DeleteFile => Except.ok (0, 0, FileActionType.DeleteFile)
  | BlockParserAction.RenameFile => Except.ok (0, 0, FileActionType.RenameFile)

/-- `BlockParser._special_block`, starting after `json.loads`: takes the
deserialized header `j`, the session rename alias table `renameMap`
(`rename_map`), the snapshot table `fileLines`
(`code_file_manager.file_lines`, keyed by git-root-relative path) and the
last line of the block (`block[-1]`, deciding `has_code`). Returns the
`(DisplayInformation, FileEdit, has_code)` triple or the raised error. -/
def specialBlock (fileLines : String → Option (List String))
    (renameMap : String → Option String) (j : DeserializedJson)
    (lastLine : String) :
    Except ParseErr (DisplayInformation × FileEdit × Bool) :=
  match j.action with
  | none => Except.error (ParseErr.valueError "")
  | some action =>
    match resolveAction j action with
    | Except.error e => Except.error e
    | Except.ok (startingLine, endingLine, fileAction) =>
      -- config.git_root / deserialized_json.file (TypeError when absent)
      match j.file with
      | none => Except.error ParseErr.typeError
      | some file =>
        -- file_lines: [] for CreateFile, else the snapshot of the
        -- rename-mapped path (block_parser.py:140-149)
        let flinesRes : Except ParseErr (List String) :=
          if fileAction = FileActionType.CreateFile then Except.ok []
          else
            match fileLines ((renameMap file).getD file) with
            | some l => Except.ok l
            | none => Except.error (ParseErr.keyError ((renameMap file).getD file))
        match flinesRes with
        | Except.error e => Except.error e
        | Except.ok flines =>
          let displayInformation : DisplayInformation :=
            { file_name := file
              file_lines := flines
              added_block := []
              removed_block := pySlice flines startingLine endingLine
              file_action := fileAction
              first_changed_line := startingLine
              last_changed_line := endingLine
              new_name := j.name }
          let replacements : List Replacement :=
            if action = BlockParserAction.Delete then
              [{ start := startingLine, «end» := endingLine, new_lines := [] }]
            else []
          let fileEdit : FileEdit :=
            { file_path := file
              replacements := replacements
              is_creation := fileAction = FileActionType.CreateFile
              is_deletion := fileAction = FileActionType.DeleteFile
              rename_file_path := j.name }
          Except.ok (displayInformation, fileEdit, lastLine == indicatorCode)

/-- `BlockParser._add_code_block`: append one `Replacement` built from the
display information's resolved range and `code_block.split("\n")[:-2]`.
Following the convention that a block of text is represented by its
`"\n"`-split segments, the argument `codeBlockLines` is that split of the
raw `code_block` string, and `[:-2]` is `take (length - 2)` (it drops the
end sentinel line and the empty segment after the block's final newline). -/
def addCodeBlock (codeBlockLines : List String)
    (displayInformation : DisplayInformation) (fileEdit : FileEdit) : FileEdit :=
  { fileEdit with
    replacements := fileEdit.replacements ++
      [{ start := displayInformation.first_changed_line
         «end» := displayInformation.last_changed_line
         new_lines := codeBlockLines.take (codeBlockLines.length - 2) }] }

/-! ## File mutation engine (`mentat/code_file_manager.py`) -/

/-- The ambient state `CodeFileManager.write_changes_to_files` works over:
the filesystem (`none` = path absent; content as its line list), the
tracked set `code_context.files`, the snapshot table
`code_file_manager.file_lines` captured by `read_all_file_lines`, and the
queue of scripted answers feeding `ask_yes_no`. -/
structure EngineState where
  disk : String → Option (List String)
  contextFiles : String → Bool
  fileLines : String → Option (List String)
  answers : List Bool

/-- `ask_yes_no(default_yes=False)`: consume the next scripted answer;
an exhausted queue yields the default `false`. -/
def askYesNo (s : EngineState) : Bool × EngineState :=
  match s.answers with
  | [] => (false, s)
  | a :: rest => (a, { s with answers := rest })

/-- `CodeFileManager.read_file` (content as lines; callers only reach it
for paths that exist on disk, where Python's `open` succeeds). -/
def readFile (s : EngineState) (p : String) : List String :=
  (s.disk p).getD []

/-- `CodeFileManager._add_file`: register `p` in the context and create
it empty on disk (`""` reads back as the single line `""`). -/
def addFile (s : EngineState) (p : String) : EngineState :=
  { s with
    contextFiles := fun q => if q = p then true else s.contextFiles q
    disk := fun q => if q = p then some [""] else s.disk q }

/-- `CodeFileManager._delete_file`: drop `p` from the context if present
and unlink it (callers only reach it for paths that exist on disk). -/
def deleteFile (s : EngineState) (p : String) : EngineState :=
  { s with
    contextFiles := fun q => if q = p then false else s.contextFiles q
    disk := fun q => if q = p then none else s.disk q }

/-- The `MentatError`s (and the `KeyError` of the snapshot lookup) that
abort a mutation batch. -/
inductive MentatErr where
  | createExists (p : String)
  | editMissing (p : String)
  | notInContext (p : String)
  | renameExists (src dest : String)
  | snapshotKeyMissing (p : String)
  deriving Repr, DecidableEq

/-- Modelled from the spec: `FileEdit.get_updated_file_lines` lives in
`mentat/parsers/file_edit.py`, which is not among the provided sources.
Per the spec, replacements are applied against the pre-edit snapshot in
descending order of `start`, each one yielding
`lines[:start] + new_lines + lines[end:]`. -/
def applyReplacement (lines : List String) (r : Replacement) : List String :=
  lines.take r.start.toNat ++ r.new_lines ++ lines.drop r.end.toNat

/-- Insert a replacement into a list sorted by descending `start`. -/
def insertDesc (r : Replacement) : List Replacement → List Replacement
  | [] => [r]
  | x :: xs =>
    if x.start ≤ r.start then r :: x :: xs else x :: insertDesc r xs

/-- Sort replacements by descending `start`. -/
def sortDesc : List Replacement → List Replacement
  | [] => []
  | x :: xs => insertDesc x (sortDesc xs)

/-- Modelled from the spec: `FileEdit.get_updated_file_lines` —
replacements applied bottom-of-file to top against the stored snapshot. -/
def getUpdatedFileLines (stored : List String) (reps : List Replacement) :
    List String :=
  (sortDesc reps).foldl applyReplacement stored

/-- The whole-file overwrite at the end of the per-edit loop:
`open(file_edit.file_path, "w")` followed by writing the joined lines. -/
def writeContent (s : EngineState) (path : String) (stored : List String)
    (fe : FileEdit) : EngineState × Option MentatErr :=
  ({ s with
      disk := fun q =>
        if q = path then some (getUpdatedFileLines stored fe.replacements)
        else s.disk q },
    none)

/-- Second half of the per-edit loop body: the out-of-band-change check
(`code_file_manager.py:101-115`), the rename step (`117-125`) and the
content write (`127-129`). The conflict prompt's answer is consumed but —
accepted or declined — control falls through to the steps below (the
decline branch only sends a notification). -/
def conflictAndWrite (s : EngineState) (fe : FileEdit) :
    EngineState × Option MentatErr :=
  let checked : Except MentatErr (EngineState × List String) :=
    if fe.is_creation = false then
      match s.fileLines fe.file_path with
      | none => Except.error (MentatErr.snapshotKeyMissing fe.file_path)
      | some stored =>
        if stored ≠ readFile s fe.file_path then
          let (_, s') := askYesNo s
          Except.ok (s', stored)
        else Except.ok (s, stored)
    else Except.ok (s, [])
  match checked with
  | Except.error e => (s, some e)
  | Except.ok (s', stored) =>
    match fe.rename_file_path with
    | some dest =>
      if (s'.disk dest).isSome then
        (s', some (MentatErr.renameExists fe.file_path dest))
      else
        writeContent (deleteFile (addFile s' dest) fe.file_path) dest stored fe
    | none => writeContent s' fe.file_path stored fe

/-- The deletion step of the per-edit loop (`code_file_manager.py:90-99`):
confirm; on accept delete and `continue` to the next edit; on decline only
notify and fall through to the conflict check and write. -/
def deletionStep (s : EngineState) (fe : FileEdit) :
    EngineState × Option MentatErr :=
  if fe.is_deletion then
    let (ans, s') := askYesNo s
    if ans then (deleteFile s' fe.file_path, none)
    else conflictAndWrite s' fe
  else conflictAndWrite s fe

/-- One iteration of the loop in `CodeFileManager.write_changes_to_files`:
the creation/existence/scope checks (`code_file_manager.py:71-88`)
followed by the deletion, conflict, rename and write steps. Returns the
state reached together with the raised error, if any. -/
def applyFileEdit (s : EngineState) (fe : FileEdit) :
    EngineState × Option MentatErr :=
  if fe.is_creation then
    if (s.disk fe.file_path).isSome then
      (s, some (MentatErr.createExists fe.file_path))
    else deletionStep (addFile s fe.file_path) fe
  else
    if (s.disk fe.file_path).isNone then
      (s, some (MentatErr.editMissing fe.file_path))
    else if s.contextFiles fe.file_path = false then
      (s, some (MentatErr.notInContext fe.file_path))
    else deletionStep s fe

/-- `CodeFileManager.write_changes_to_files`: apply the batch in order;
a raised error stops the loop, leaving earlier effects in place. -/
def writeChangesToFiles (s : EngineState) :
    List FileEdit → EngineState × Option MentatErr
  | [] => (s, none)
  | fe :: rest =>
    match applyFileEdit s fe with
    | (s', none) => writeChangesToFiles s' rest
    | (s', some e) => (s', some e)

/-! ## Configuration lookup (`mentat/config_manager.py`) -/

/-- The three loaded configuration dictionaries of `ConfigManager`
(a Python `key in dict` test plus `dict[key]` lookup is an `Option`-valued
map). -/
structure ConfigManager (V : Type) where
  project_config : String → Option V
  user_config : String → Option V
  default_config : String → Option V

/-- `ConfigManager._get_key`: project config first, then user config,
then default config; `ValueError` when the key is in none of the three. -/
def getKey {V : Type} (c : ConfigManager V) (key : String) :
    Except String V :=
  match c.project_config key with
  | some v => Except.ok v
  | none =>
    match c.user_config key with
    | some v => Except.ok v
    | none =>
      match c.default_config key with
      | some v => Except.ok v
      | none => Except.error ("No value for config key " ++ key ++ " found")

/-! ## Observation helpers and concrete demonstration inputs -/

/-- The resolved `(first_changed_line, last_changed_line)` range of a
successful header decode. -/
def decodedRange (r : Except ParseErr (DisplayInformation × FileEdit × Bool)) :
    Option (Int × Int) :=
  match r with
  | Except.ok (di, _, _) => some (di.first_changed_line, di.last_changed_line)
  | Except.error _ => none

/-- The `FileEdit` of a successful header decode. -/
def decodedEdit (r : Except ParseErr (DisplayInformation × FileEdit × Bool)) :
    Option FileEdit :=
  match r with
  | Except.ok (_, fe, _) => some fe
  | Except.error _ => none

/-- The `has_code` flag of a successful header decode. -/
def decodedHasCode (r : Except ParseErr (DisplayInformation × FileEdit × Bool)) :
    Option Bool :=
  match r with
  | Except.ok (_, _, hc) => some hc
  | Except.error _ => none

/-- A header JSON for an `insert` action. -/
def insertHeader (f : String) (b a : Option Int) : DeserializedJson :=
  { file := some f, action := some BlockParserAction.Insert,
    before_line := b, after_line := a }

/-- A header JSON for a range-carrying (`replace`/`delete`) action. -/
def rangeHeader (action : BlockParserAction) (f : String) (sl el : Int) :
    DeserializedJson :=
  { file := some f, action := some action,
    start_line := some sl, end_line := some el }

/-- Snapshot table holding only the spec's four-line example file. -/
def demoSnapshots : String → Option (List String) := fun p =>
  if p = "f.txt" then some ["aaa", "bbb", "ccc", "ddd"] else none

/-- The empty rename alias table. -/
def noRenames : String → Option String := fun _ => none

/-- Snapshot table of a session in which `a.txt` was renamed to `b.txt`:
only the new identity `b.txt` has stored lines. -/
def renamedSnapshots : String → Option (List String) := fun p =>
  if p = "b.txt" then some ["l1"] else none

/-- Rename alias table after a `rename-file` block took `a.txt` to `b.txt`. -/
def demoRenameMap : String → Option String := fun p =>
  if p = "a.txt" then some "b.txt" else none

/-- A later block of the same session addressing the old path `a.txt`. -/
def oldPathHeader : DeserializedJson :=
  rangeHeader BlockParserAction.Replace "a.txt" 1 1

/-- Engine state for the conflict scenario: `f.txt` was externally changed
to `["external"]` after the snapshot `["orig"]` was taken; the scripted
user declines the conflict confirmation. -/
def conflictDemoState : EngineState :=
  { disk := fun p => if p = "f.txt" then some ["external"] else none
    contextFiles := fun p => p = "f.txt"
    fileLines := fun p => if p = "f.txt" then some ["orig"] else none
    answers := [false] }

/-- The conflicting edit: replace line 1 of `f.txt` with `new`. -/
def conflictDemoEdit : FileEdit :=
  { file_path := "f.txt"
    replacements := [{ start := 0, «end» := 1, new_lines := ["new"] }] }

/-- Engine state for the declined-deletion scenario: tracked `a.txt` with
content and snapshot `["x"]`; the scripted user declines the deletion. -/
def deletionDemoState : EngineState :=
  { disk := fun p => if p = "a.txt" then some ["x"] else none
    contextFiles := fun p => p = "a.txt"
    fileLines := fun p => if p = "a.txt" then some ["x"] else none
    answers := [false] }

/-- A combined rename+delete edit on `a.txt` with rename target `b.txt`. -/
def deletionDemoEdit : FileEdit :=
  { file_path := "a.txt"
    replacements := []
    is_deletion := true
    rename_file_path := some "b.txt" }

/-- A minimal tracked state: `a.txt` on disk, tracked, snapshotted. -/
def batchDemoState : EngineState :=
  { disk := fun p => if p = "a.txt" then some ["x"] else none
    contextFiles := fun p => p = "a.txt"
    fileLines := fun p => if p = "a.txt" then some ["x"] else none
    answers := [] }

/-- Same tracked state but with a scripted `yes` answer queued. -/
def acceptDemoState : EngineState :=
  { batchDemoState with answers := [true] }

/-- A creation edit targeting the already-existing `a.txt`. -/
def badCreateEdit : FileEdit :=
  { file_path := "a.txt", replacements := [], is_creation := true }

/-- An ordinary edit of the tracked `a.txt` (used as a batch follower). -/
def plainDemoEdit : FileEdit :=
  { file_path := "a.txt", replacements := [] }

/-- An edit of `a.txt` that renames it to `b.txt`. -/
def renameDemoEdit : FileEdit :=
  { file_path := "a.txt", replacements := [], rename_file_path := some "b.txt" }

/-- A pure deletion edit of `a.txt`. -/
def deleteDemoEdit : FileEdit :=
  { file_path := "a.txt", replacements := [], is_deletion := true }

/-- The display information decoded from the spec's example header
`{"file":"f.txt","action":"replace","start-line":2,"end-line":3}`. -/
def exampleDisplayInformation : DisplayInformation :=
  { file_name := "f.txt"
    file_lines := ["aaa", "bbb", "ccc", "ddd"]
    added_block := []
    removed_block := ["bbb", "ccc"]
    file_action := FileActionType.UpdateFile
    first_changed_line := 1
    last_changed_line := 3
    new_name := none }

/-- The in-progress `FileEdit` born from the spec's example header. -/
def exampleFileEdit : FileEdit :=
  { file_path := "f.txt", replacements := [] }

/-- Demo `ConfigManager` mirroring `tests/config_test.py`: the key
`project-first` is set (differently) in all three configs, `user-second`
in user and default, `default-last` only in the default config. -/
def demoConfig : ConfigManager String :=
  { project_config := fun k => if k = "project-first" then some "project" else none
    user_config := fun k =>
      if k = "project-first" then some "I will not be used"
      else if k = "user-second" then some "user" else none
    default_config := fun k =>
      if k = "project-first" then some "I also am not used"
      else if k = "user-second" then some "Neither am I"
      else if k = "default-last" then some "default" else none }

/-- Running a batch prefix then the rest equals running the whole list
(helper for batch-fatality reasoning). -/
theorem writeChangesToFiles_append (s : EngineState) (l1 l2 : List FileEdit) :
    writeChangesToFiles s (l1 ++ l2)
      = match writeChangesToFiles s l1 with
        | (s1, none) => writeChangesToFiles s1 l2
        | (s1, some e) => (s1, some e) := by
  induction l1 generalizing s with
  | nil => rfl
  | cons fe rest ih =>
    show writeChangesToFiles s (fe :: (rest ++ l2)) = _
    simp only [writeChangesToFiles]
    cases h : applyFileEdit s fe with
    | mk s' err =>
      cases err with
      | none => simpa using ih s'
      | some e => rfl

/-! ## Claim theorems -/

/-- C1: the claim says that when a non-creation edit's on-disk content
differs from the stored snapshot and the user declines the conflict
confirmation, the edit is skipped and the file's content is unchanged
after the batch. The code disagrees: after sending the
"Not applying changes" notification it falls through (there is no
`continue` in `code_file_manager.py:112-113`), so the declined edit is
still applied — here `f.txt`, externally changed to `["external"]` while
its snapshot was `["orig"]`, ends the batch overwritten with the computed
replacement content `["new"]`. -/
theorem conflict_decline_edit_still_applied :
    conflictDemoState.disk "f.txt" = some ["external"]
    ∧ conflictDemoState.fileLines "f.txt" = some ["orig"]
    ∧ conflictDemoState.answers = [false]
    ∧ (writeChangesToFiles conflictDemoState [conflictDemoEdit]).2 = none
    ∧ (writeChangesToFiles conflictDemoState [conflictDemoEdit]).1.disk "f.txt"
        = some ["new"] := by
  refine ⟨rfl, rfl, rfl, ?_, ?_⟩ <;> rfl

/-- C2: the claim says that when a deletion is declined no further action
is taken for that edit — the file still exists unchanged and a rename
carried by the same edit is not attempted. The code disagrees: after the
"Not deleting" notification it falls through (no `continue` in
`code_file_manager.py:98-99`), so the rename is still attempted — here the
declined deletion of `a.txt` (rename target `b.txt`) leaves `a.txt`
removed from disk and `b.txt` created with its content. -/
theorem deletion_decline_rename_still_attempted :
    deletionDemoEdit.is_deletion = true
    ∧ deletionDemoEdit.rename_file_path = some "b.txt"
    ∧ deletionDemoState.answers = [false]
    ∧ (writeChangesToFiles deletionDemoState [deletionDemoEdit]).2 = none
    ∧ (writeChangesToFiles deletionDemoState [deletionDemoEdit]).1.disk "a.txt"
        = none
    ∧ (writeChangesToFiles deletionDemoState [deletionDemoEdit]).1.disk "b.txt"
        = some ["x"] := by
  refine ⟨rfl, rfl, rfl, ?_, ?_, ?_⟩ <;> rfl

/-- C3: the claim says header decoding resolves the block's `file`
through the session's rename alias table so the resulting `FileEdit`
addresses the renamed identity. The code disagrees: `_special_block`
consults `rename_map` only for the `file_lines` snapshot lookup
(`block_parser.py:140-148`) and builds the `FileEdit` with the literal
path (`block_parser.py:164-165`) — with alias `a.txt → b.txt` and a block
addressing `a.txt`, the decode succeeds (the snapshot lookup did go
through `b.txt`, the only snapshotted path) yet the `FileEdit` carries
`a.txt`, not `b.txt`. -/
theorem file_edit_keeps_literal_path_despite_rename_alias :
    demoRenameMap "a.txt" = some "b.txt"
    ∧ renamedSnapshots "a.txt" = none
    ∧ (specialBlock renamedSnapshots demoRenameMap oldPathHeader indicatorEnd).isOk
        = true
    ∧ (decodedEdit
          (specialBlock renamedSnapshots demoRenameMap oldPathHeader indicatorEnd)).map
        FileEdit.file_path = some "a.txt"
    ∧ ("a.txt" : String) ≠ "b.txt" := by
  refine ⟨rfl, rfl, rfl, rfl, by decide⟩

/-- C4: insert-action headers resolve their range as claimed: with
`insert-before-line` present, `start = end = before_line - 1`, and a
coexisting `insert-after-line` must equal that start or decoding fails
with the `ValueError "Insert line numbers invalid"`; with only
`insert-after-line`, `start = end = after_line`; with neither, decoding
fails with the `ValueError "Insert line number not specified"`. -/
theorem insert_header_range_resolution
    (fileLines : String → Option (List String))
    (renameMap : String → Option String) (f : String) (l : List String)
    (lastLine : String) (hs : fileLines ((renameMap f).getD f) = some l) :
    (∀ b : Int,
      decodedRange (specialBlock fileLines renameMap
          (insertHeader f (some b) none) lastLine) = some (b - 1, b - 1))
    ∧ (∀ b a : Int, a = b - 1 →
      decodedRange (specialBlock fileLines renameMap
          (insertHeader f (some b) (some a)) lastLine) = some (b - 1, b - 1))
    ∧ (∀ b a : Int, a ≠ b - 1 →
      specialBlock fileLines renameMap (insertHeader f (some b) (some a)) lastLine
        = Except.error (ParseErr.valueError "Insert line numbers invalid"))
    ∧ (∀ a : Int,
      decodedRange (specialBlock fileLines renameMap
          (insertHeader f none (some a)) lastLine) = some (a, a))
    ∧ specialBlock fileLines renameMap (insertHeader f none none) lastLine
        = Except.error (ParseErr.valueError "Insert line number not specified") := by
  refine ⟨?_, ?_, ?_, ?_, ?_⟩
  · intro b
    simp [specialBlock, resolveAction, insertHeader, decodedRange, hs]
  · intro b a h
    subst h
    simp [specialBlock, resolveAction, insertHeader, decodedRange, hs]
  · intro b a h
    have h' : ¬ (b - 1 = a) := fun hc => h (hc.symm)
    simp [specialBlock, resolveAction, insertHeader, h']
  · intro a
    simp [specialBlock, resolveAction, insertHeader, decodedRange, hs]
  · simp [specialBlock, resolveAction, insertHeader]

/-- C4 witness: the spec's concrete instances — `insert-before-line 5`
gives `start = end = 4`, also with `insert-after-line 4`; `insert-after-line 4`
alone gives `start = end = 4`; `insert-before-line 5` with
`insert-after-line 5` is a validation error. -/
theorem insert_header_range_resolution_witness :
    decodedRange (specialBlock demoSnapshots noRenames
        (insertHeader "f.txt" (some 5) none) indicatorCode) = some (4, 4)
    ∧ decodedRange (specialBlock demoSnapshots noRenames
        (insertHeader "f.txt" (some 5) (some 4)) indicatorCode) = some (4, 4)
    ∧ decodedRange (specialBlock demoSnapshots noRenames
        (insertHeader "f.txt" none (some 4)) indicatorCode) = some (4, 4)
    ∧ specialBlock demoSnapshots noRenames
        (insertHeader "f.txt" (some 5) (some 5)) indicatorCode
        = Except.error (ParseErr.valueError "Insert line numbers invalid")
    ∧ specialBlock demoSnapshots noRenames
        (insertHeader "f.txt" none none) indicatorCode
        = Except.error (ParseErr.valueError "Insert line number not specified") := by
  have h := insert_header_range_resolution demoSnapshots noRenames "f.txt"
    ["aaa", "bbb", "ccc", "ddd"] indicatorCode rfl
  exact ⟨h.1 5, by simpa using h.2.1 5 4 (by decide),
    h.2.2.2.1 4, h.2.2.1 5 5 (by decide), h.2.2.2.2⟩

/-- C5: `replace`/`delete` headers decode to `start = start-line - 1`,
`end = end-line`; a `replace` edit is born with no replacements, while a
`delete` edit synthesizes `Replacement(start, end, [])` at header-decode
time, and a `delete` block closed directly by the end sentinel reports
`has_code = false` (no code section). -/
theorem replace_delete_header_resolution
    (fileLines : String → Option (List String))
    (renameMap : String → Option String) (f : String) (l : List String)
    (lastLine : String) (sl el : Int)
    (hs : fileLines ((renameMap f).getD f) = some l) :
    decodedRange (specialBlock fileLines renameMap
        (rangeHeader BlockParserAction.Replace f sl el) lastLine)
      = some (sl - 1, el)
    ∧ (decodedEdit (specialBlock fileLines renameMap
        (rangeHeader BlockParserAction.Replace f sl el) lastLine)).map
        FileEdit.replacements = some []
    ∧ decodedRange (specialBlock fileLines renameMap
        (rangeHeader BlockParserAction.Delete f sl el) lastLine)
      = some (sl - 1, el)
    ∧ (decodedEdit (specialBlock fileLines renameMap
        (rangeHeader BlockParserAction.Delete f sl el) lastLine)).map
        FileEdit.replacements
      = some [{ start := sl - 1, «end» := el, new_lines := [] }]
    ∧ decodedHasCode (specialBlock fileLines renameMap
        (rangeHeader BlockParserAction.Delete f sl el) indicatorEnd)
      = some false := by
  refine ⟨?_, ?_, ?_, ?_, ?_⟩ <;>
    simp [specialBlock, resolveAction, rangeHeader, decodedRange, decodedEdit,
      decodedHasCode, hs, indicatorEnd, indicatorCode]

/-- C5 witness: the spec's example `{"action":"replace","start-line":2,
"end-line":3}` resolves to the internal range `(1, 3)`, and the same
range as a `delete` synthesizes `Replacement(1, 3, [])` with no code
section expected. -/
theorem replace_delete_header_resolution_witness :
    decodedRange (specialBlock demoSnapshots noRenames
        (rangeHeader BlockParserAction.Replace "f.txt" 2 3) indicatorCode)
      = some (1, 3)
    ∧ (decodedEdit (specialBlock demoSnapshots noRenames
        (rangeHeader BlockParserAction.Delete "f.txt" 2 3) indicatorEnd)).map
        FileEdit.replacements
      = some [{ start := 1, «end» := 3, new_lines := [] }]
    ∧ decodedHasCode (specialBlock demoSnapshots noRenames
        (rangeHeader BlockParserAction.Delete "f.txt" 2 3) indicatorEnd)
      = some false := by
  have h := replace_delete_header_resolution demoSnapshots noRenames "f.txt"
    ["aaa", "bbb", "ccc", "ddd"] indicatorCode 2 3 rfl
  have h' := replace_delete_header_resolution demoSnapshots noRenames "f.txt"
    ["aaa", "bbb", "ccc", "ddd"] indicatorEnd 2 3 rfl
  exact ⟨h.1, h'.2.2.2.1, h.2.2.2.2⟩

/-- C9: closing a code section appends exactly one `Replacement` to the
in-progress `FileEdit`, with the header's already-resolved range and
exactly the buffered code lines (the handed-over block is the code lines
followed by the end sentinel line and the empty segment after the final
newline, which `[:-2]` strips). -/
theorem code_accumulator_appends_replacement
    (codeLines codeBlockLines : List String) (di : DisplayInformation)
    (fe : FileEdit) (hframe : codeBlockLines = codeLines ++ [indicatorEnd, ""]) :
    addCodeBlock codeBlockLines di fe
      = { fe with replacements := fe.replacements ++
          [{ start := di.first_changed_line
             «end» := di.last_changed_line
             new_lines := codeLines }] } := by
  subst hframe
  simp [addCodeBlock, List.take_left]

/-- C9 witness: the spec's example — the replace header resolved to
`(1, 3)` followed by code lines `XXX`, `YYY` yields
`Replacement(1, 3, ["XXX","YYY"])` appended to the edit. -/
theorem code_accumulator_appends_replacement_witness :
    addCodeBlock ["XXX", "YYY", indicatorEnd, ""] exampleDisplayInformation
        exampleFileEdit
      = { exampleFileEdit with
          replacements := [{ start := 1, «end» := 3,
                             new_lines := ["XXX", "YYY"] }] } := by
  have h := code_accumulator_appends_replacement ["XXX", "YYY"]
    ["XXX", "YYY", indicatorEnd, ""] exampleDisplayInformation exampleFileEdit rfl
  simpa using h

/-- C6: a creation edit whose target already exists, and a non-creation
edit whose target is missing from disk or untracked, abort the batch: the
failing edit raises, no later `FileEdit` is applied, and the state reached
by the earlier edits is kept as is. -/
theorem state_errors_are_batch_fatal
    (s s1 : EngineState) (pre post : List FileEdit) (bad : FileEdit)
    (hpre : writeChangesToFiles s pre = (s1, none))
    (hbad : (bad.is_creation = true ∧ (s1.disk bad.file_path).isSome = true)
        ∨ (bad.is_creation = false
            ∧ (s1.disk bad.file_path = none
               ∨ s1.contextFiles bad.file_path = false))) :
    ∃ e : MentatErr, writeChangesToFiles s (pre ++ bad :: post) = (s1, some e) := by
  have happly : ∃ e : MentatErr, applyFileEdit s1 bad = (s1, some e) := by
    rcases hbad with ⟨hc, hd⟩ | ⟨hc, hd⟩
    · exact ⟨MentatErr.createExists bad.file_path, by simp [applyFileEdit, hc, hd]⟩
    · by_cases hnone : s1.disk bad.file_path = none
      · exact ⟨MentatErr.editMissing bad.file_path,
          by simp [applyFileEdit, hc, hnone]⟩
      · have hctx : s1.contextFiles bad.file_path = false := by
          rcases hd with hd | hd
          · exact absurd hd hnone
          · exact hd
        obtain ⟨v, hv⟩ := Option.ne_none_iff_exists'.mp hnone
        exact ⟨MentatErr.notInContext bad.file_path,
          by simp [applyFileEdit, hc, hv, hctx]⟩
  obtain ⟨e, he⟩ := happly
  refine ⟨e, ?_⟩
  rw [writeChangesToFiles_append, hpre]
  show writeChangesToFiles s1 (bad :: post) = (s1, some e)
  simp [writeChangesToFiles, he]

/-- C6 witness: creating the already-existing `a.txt` aborts the batch in
the demo state (the empty prefix's state is kept, the follower edit is
never applied). -/
theorem state_errors_are_batch_fatal_witness :
    ∃ e : MentatErr,
      writeChangesToFiles batchDemoState ([] ++ badCreateEdit :: [plainDemoEdit])
        = (batchDemoState, some e) :=
  state_errors_are_batch_fatal batchDemoState batchDemoState [] [plainDemoEdit]
    badCreateEdit rfl (Or.inl ⟨rfl, rfl⟩)

/-- C7: a `FileEdit` carrying a rename target fails the batch if the
destination already exists; otherwise the rename is create-at-destination
followed by delete-at-source — the tracked set gains the destination and
loses the source, the destination receives the content computed from the
stored snapshot and the source is gone from disk. -/
theorem rename_edit_semantics
    (s : EngineState) (fe : FileEdit) (dest : String) (stored : List String)
    (hcre : fe.is_creation = false) (hdel : fe.is_deletion = false)
    (hren : fe.rename_file_path = some dest)
    (hdisk : s.disk fe.file_path = some stored)
    (hctx : s.contextFiles fe.file_path = true)
    (hsnap : s.fileLines fe.file_path = some stored) :
    ((s.disk dest).isSome = true →
      applyFileEdit s fe = (s, some (MentatErr.renameExists fe.file_path dest)))
    ∧ (s.disk dest = none →
        (applyFileEdit s fe).2 = none
        ∧ (applyFileEdit s fe).1.disk dest
            = some (getUpdatedFileLines stored fe.replacements)
        ∧ (applyFileEdit s fe).1.contextFiles dest = true
        ∧ (applyFileEdit s fe).1.disk fe.file_path = none
        ∧ (applyFileEdit s fe).1.contextFiles fe.file_path = false) := by
  constructor
  · intro h
    simp [applyFileEdit, deletionStep, conflictAndWrite, readFile,
      hcre, hdel, hren, hdisk, hctx, hsnap, h]
  · intro h
    have hne : fe.file_path ≠ dest := by
      intro hEq
      rw [hEq, h] at hdisk
      exact Option.noConfusion hdisk
    simp [applyFileEdit, deletionStep, conflictAndWrite, writeContent,
      addFile, deleteFile, readFile, hcre, hdel, hren, hdisk, hctx, hsnap, h,
      hne, Ne.symm hne]

/-- C7 witness: renaming the tracked `a.txt` (content `["x"]`, no
replacements) to the fresh `b.txt` succeeds, moving content and tracking
from `a.txt` to `b.txt`. -/
theorem rename_edit_semantics_witness :
    (applyFileEdit batchDemoState renameDemoEdit).2 = none
    ∧ (applyFileEdit batchDemoState renameDemoEdit).1.disk "b.txt" = some ["x"]
    ∧ (applyFileEdit batchDemoState renameDemoEdit).1.contextFiles "b.txt" = true
    ∧ (applyFileEdit batchDemoState renameDemoEdit).1.disk "a.txt" = none
    ∧ (applyFileEdit batchDemoState renameDemoEdit).1.contextFiles "a.txt"
        = false := by
  have h := (rename_edit_semantics batchDemoState renameDemoEdit "b.txt" ["x"]
    rfl rfl rfl rfl rfl rfl).2 rfl
  simpa [renameDemoEdit, getUpdatedFileLines, sortDesc] using h

/-- C8: an accepted deletion (the confirmation's default being "no")
removes the path from disk and from the tracked set and moves on to the
next edit without writing content anywhere. -/
theorem deletion_accept_removes_file
    (s : EngineState) (fe : FileEdit) (rest : List Bool) (c : List String)
    (hdel : fe.is_deletion = true) (hcre : fe.is_creation = false)
    (hans : s.answers = true :: rest)
    (hdisk : s.disk fe.file_path = some c)
    (hctx : s.contextFiles fe.file_path = true) :
    applyFileEdit s fe = (deleteFile { s with answers := rest } fe.file_path, none)
    ∧ (applyFileEdit s fe).1.disk fe.file_path = none
    ∧ (applyFileEdit s fe).1.contextFiles fe.file_path = false
    ∧ (∀ q, q ≠ fe.file_path → (applyFileEdit s fe).1.disk q = s.disk q)
    ∧ (∀ t : EngineState, t.answers = [] → (askYesNo t).1 = false) := by
  have h1 : applyFileEdit s fe
      = (deleteFile { s with answers := rest } fe.file_path, none) := by
    simp [applyFileEdit, deletionStep, askYesNo, hcre, hdel, hdisk, hctx, hans]
  refine ⟨h1, ?_, ?_, ?_, ?_⟩
  · rw [h1]; simp [deleteFile]
  · rw [h1]; simp [deleteFile]
  · intro q hq
    rw [h1]; simp [deleteFile, hq]
  · intro t ht
    simp [askYesNo, ht]

/-- C8 witness: with a scripted `yes`, deleting the tracked `a.txt`
removes it from disk and context, the batch continuing normally. -/
theorem deletion_accept_removes_file_witness :
    (applyFileEdit acceptDemoState deleteDemoEdit).1.disk "a.txt" = none
    ∧ (applyFileEdit acceptDemoState deleteDemoEdit).1.contextFiles "a.txt"
        = false
    ∧ (applyFileEdit acceptDemoState deleteDemoEdit).2 = none := by
  have h := deletion_accept_removes_file acceptDemoState deleteDemoEdit [] ["x"]
    rfl rfl rfl rfl rfl
  exact ⟨by simpa [deleteDemoEdit] using h.2.1,
    by simpa [deleteDemoEdit] using h.2.2.1, by rw [h.1]⟩

/-- C10: `_get_key` resolves with fixed priority — project config first,
then user config, then the built-in default config; a key present in none
of the three raises `ValueError`. -/
theorem config_key_priority {V : Type} (c : ConfigManager V) (key : String) :
    (∀ v, c.project_config key = some v → getKey c key = Except.ok v)
    ∧ (c.project_config key = none →
        ∀ v, c.user_config key = some v → getKey c key = Except.ok v)
    ∧ (c.project_config key = none → c.user_config key = none →
        ∀ v, c.default_config key = some v → getKey c key = Except.ok v)
    ∧ (c.project_config key = none → c.user_config key = none →
        c.default_config key = none →
        getKey c key
          = Except.error ("No value for config key " ++ key ++ " found")) := by
  refine ⟨?_, ?_, ?_, ?_⟩
  · intro v h
    simp [getKey, h]
  · intro hp v h
    simp [getKey, hp, h]
  · intro hp hu v h
    simp [getKey, hp, hu, h]
  · intro hp hu hd
    simp [getKey, hp, hu, hd]

/-- C10 witness: in the demo configuration (mirroring
`tests/config_test.py`), `project-first` comes from the project config,
`user-second` from the user config, `default-last` from the default
config, and `non-existent` raises. -/
theorem config_key_priority_witness :
    getKey demoConfig "project-first" = Except.ok "project"
    ∧ getKey demoConfig "user-second" = Except.ok "user"
    ∧ getKey demoConfig "default-last" = Except.ok "default"
    ∧ getKey demoConfig "non-existent"
        = Except.error ("No value for config key " ++ "non-existent" ++ " found") :=
  ⟨(config_key_priority demoConfig "project-first").1 "project" rfl,
    (config_key_priority demoConfig "user-second").2.1 rfl "user" rfl,
    (config_key_priority demoConfig "default-last").2.2.1 rfl rfl "default" rfl,
    (config_key_priority demoConfig "non-existent").2.2.2 rfl rfl rfl⟩

end Mentat
